import Mathlib

/-!
Shallow embedding of the pg-migrate front-end (React/TypeScript) state
handlers and render functions, together with theorems checking the
natural-language specification against them.

The embedded functions follow the source files:
- `src/src/App.tsx` (state, `handleSaveConnection`, `handleDeleteConnection`,
  `handleSwap`, `handleSort`, `handleMigrate`, the result banner),
- `src/src/components/MigrationPanel.tsx` (batch-size options, action buttons),
- `ProgressBar` (percent computations, preparing placeholder),
- `ConnectionForm` (`handleConnect` port defaulting).
-/

namespace PGMigrate

/-- `TableRef`: `{schema, name}` as sent to the backend commands. -/
structure TableRef where
  schema : String
  name : String
deriving DecidableEq, Repr

/-- `TableInfo` from `App.tsx` (the analysis-status fields are irrelevant to
the embedded handlers and omitted by the claims; row counts and sizes are
kept as integers). -/
structure TableInfo where
  name : String
  schema : String
  row_count : Int
  size_bytes : Int
deriving DecidableEq, Repr

/-- The identity key used throughout the UI: `schema.name`. -/
def tableKey (t : TableInfo) : String := t.schema ++ "." ++ t.name

/-- The same identity key on a `TableRef`. -/
def refKey (r : TableRef) : String := r.schema ++ "." ++ r.name

/-- `MigrationProgress` payload of the `migration-progress` event. -/
structure MigrationProgress where
  table_name : String
  current_table : Int
  total_tables : Int
  rows_transferred : Int
  total_rows : Int
  status : String
  error : Option String
deriving DecidableEq, Repr

/-- `MigrationOptions` from `App.tsx`. -/
structure MigrationOptions where
  create_table_if_not_exists : Bool
  truncate_before_insert : Bool
  disable_constraints : Bool
  batch_size : Nat
deriving DecidableEq, Repr

/-- `MigrationResult` from `App.tsx`. -/
structure MigrationResult where
  success : Bool
  tables_migrated : Nat
  total_rows : Nat
  errors : List String
  elapsed_ms : Nat
deriving DecidableEq, Repr

/-- `ConnectionConfig`. The port is `Option Nat`: the TypeScript value is a
number that may be absent (`undefined`) at runtime, and the form stores `0`
when the port field is emptied. -/
structure ConnectionConfig where
  host : String
  port : Option Nat
  database : String
  username : String
  password : String
deriving DecidableEq, Repr

/-- `ConnectionStatus` returned by `connect_database`. -/
structure ConnectionStatus where
  id : String
  connected : Bool
  database : String
  host : String
  error : Option String
deriving DecidableEq, Repr

/-- `SavedConnection` as persisted in localStorage. -/
structure SavedConnection where
  name : String
  config : ConnectionConfig
deriving DecidableEq, Repr

/-! ## Saved connections (`App.tsx` `handleSaveConnection` / `handleDeleteConnection`) -/

/-- `handleSaveConnection`: `[...prev.filter(c => c.name !== newConnection.name), newConnection]`. -/
def handleSaveConnection (prev : List SavedConnection) (newConnection : SavedConnection) :
    List SavedConnection :=
  prev.filter (fun c => c.name ≠ newConnection.name) ++ [newConnection]

/-- `handleDeleteConnection`: `prev.filter(c => c.name !== name)`. -/
def handleDeleteConnection (prev : List SavedConnection) (name : String) :
    List SavedConnection :=
  prev.filter (fun c => c.name ≠ name)

/-! ## App state and `handleSwap` -/

/-- The slice of `App` component state the embedded handlers read and write.
`selectedTables` is the JS `Set<string>` of `schema.name` keys. -/
structure AppState where
  sourceConnection : Option ConnectionStatus
  targetConnection : Option ConnectionStatus
  sourceConfig : ConnectionConfig
  targetConfig : ConnectionConfig
  sourceTables : List TableInfo
  targetTables : List TableInfo
  selectedTables : Finset String
deriving DecidableEq

/-- `handleSwap`: swaps connections, configurations and table lists, and
clears the selection (`setSelectedTables(new Set())`). -/
def handleSwap (s : AppState) : AppState :=
  { s with
    sourceConnection := s.targetConnection
    targetConnection := s.sourceConnection
    sourceConfig := s.targetConfig
    targetConfig := s.sourceConfig
    sourceTables := s.targetTables
    targetTables := s.sourceTables
    selectedTables := ∅ }

/-! ## `handleMigrate` / `handleSort` -/

/-- The `tablesToMigrate` computation shared (textually identical) by
`handleMigrate` and `handleSort`:
`sourceTables.filter(t => selectedTables.has(`schema.name`)).map(t => ({schema, name}))`. -/
def tablesToMigrate (selectedTables : Finset String) (sourceTables : List TableInfo) :
    List TableRef :=
  (sourceTables.filter (fun t => tableKey t ∈ selectedTables)).map
    (fun t => { schema := t.schema, name := t.name })

/-- The `start_migration` request built by `handleMigrate`. -/
structure MigrationRequest where
  source_connection_id : String
  target_connection_id : String
  tables : List TableRef
  options : MigrationOptions
  target_schema_override : Option String
deriving DecidableEq

/-- The request `handleMigrate` passes to `invoke("start_migration", ...)`;
`target_schema_override` is `targetSchema.trim() || null`. -/
def mkMigrationRequest (s : AppState) (sc tc : ConnectionStatus)
    (targetSchema : String) (options : MigrationOptions) : MigrationRequest :=
  { source_connection_id := sc.id
    target_connection_id := tc.id
    tables := tablesToMigrate s.selectedTables s.sourceTables
    options := options
    target_schema_override :=
      if targetSchema.trim = "" then none else some targetSchema.trim }

/-- The `catch` branch of `handleMigrate`: the terminal result recorded when
the `start_migration` promise rejects with message `e`. -/
def failureResult (e : String) : MigrationResult :=
  { success := false
    tables_migrated := 0
    total_rows := 0
    errors := [e]
    elapsed_ms := 0 }

/-- State mutations and backend invocations a handler performs, in program
order. -/
inductive UiEvent where
  | setIsMigrating (b : Bool)
  | setProgressEvt (p : Option MigrationProgress)
  | setLastResultEvt (r : Option MigrationResult)
  | invokeStartMigration (req : MigrationRequest)
  | invokeGetTables (connectionId : String)
  | invokeSortTables (connectionId : String) (tables : List TableRef)
deriving DecidableEq

/-- The ordered trace of `handleMigrate`, parameterised by the settled
outcome of the `start_migration` promise. Guards, the `try` block, the
`catch` branch and the `finally` block follow the source order. -/
def handleMigrateTrace (s : AppState) (targetSchema : String)
    (options : MigrationOptions) (outcome : Except String MigrationResult) :
    List UiEvent :=
  match s.sourceConnection, s.targetConnection with
  | some sc, some tc =>
    if s.selectedTables = ∅ then []
    else
      [UiEvent.setIsMigrating true, UiEvent.setProgressEvt none,
        UiEvent.setLastResultEvt none,
        UiEvent.invokeStartMigration (mkMigrationRequest s sc tc targetSchema options)] ++
      (match outcome with
        | Except.ok r =>
          [UiEvent.setLastResultEvt (some r), UiEvent.invokeGetTables tc.id]
        | Except.error e =>
          [UiEvent.setLastResultEvt (some (failureResult e))]) ++
      [UiEvent.setIsMigrating false, UiEvent.setProgressEvt none]
  | _, _ => []

/-- `Number.MAX_SAFE_INTEGER`, the sort key `handleSort` assigns to tables
absent from the dependency-sorted list. -/
def maxSafeInteger : Nat := 2 ^ 53 - 1

/-- The sort key `handleSort` builds from `sortedMap`: the index of the
table's key in the backend-returned order, else `MAX_SAFE_INTEGER`. -/
def sortIdx (sorted : List TableRef) (t : TableInfo) : Nat :=
  match (sorted.map refKey).indexOf? (tableKey t) with
  | some i => i
  | none => maxSafeInteger

/-- The comparator of `handleSort`: ascending by `sortIdx` (the JS
comparator returns `idxA - idxB`, and returning `0` keeps relative order). -/
def sortLe (sorted : List TableRef) (a b : TableInfo) : Bool :=
  sortIdx sorted a ≤ sortIdx sorted b

/-- The `setSourceTables` update of `handleSort`: a stable ascending sort of
the previous list by `sortIdx` (JS `Array.prototype.sort` is stable and the
comparator returns `idxA - idxB`). -/
def applySortResult (sorted : List TableRef) (prev : List TableInfo) : List TableInfo :=
  prev.mergeSort (sortLe sorted)

/-- The backend invocations of `handleSort` (the guards mirror the source;
the one invocation is `sort_tables_by_dependency` on the selected list). -/
def handleSortTrace (s : AppState) : List UiEvent :=
  match s.sourceConnection with
  | some sc =>
    if s.selectedTables = ∅ then []
    else [UiEvent.invokeSortTables sc.id (tablesToMigrate s.selectedTables s.sourceTables)]
  | none => []

/-! ## MigrationPanel -/

/-- The hard-coded `<option>` values of the batch-size `<select>` in
`MigrationPanel.tsx`. -/
def batchSizeOptions : List Nat := [100, 1000, 10000, 50000]

/-- The initial `MigrationOptions` state in `App.tsx`. -/
def defaultMigrationOptions : MigrationOptions :=
  { create_table_if_not_exists := true
    truncate_before_insert := false
    disable_constraints := true
    batch_size := 1000 }

/-- The action area of `MigrationPanel`: either the Cancel button or the
Migrate button (with its enabled flag), never both. -/
inductive PanelAction where
  | cancelButton
  | migrateButton (enabled : Bool)
deriving DecidableEq, Repr

/-- `MigrationPanel` action rendering: `isMigrating ? Cancel : Migrate`. -/
def renderPanelAction (isMigrating : Bool) (canMigrate : Bool) : PanelAction :=
  if isMigrating then PanelAction.cancelButton else PanelAction.migrateButton canMigrate

/-! ## ProgressBar -/

/-- `Math.round` on an exact rational: `⌊q + 1/2⌋`. -/
def jsRound (q : ℚ) : ℤ := ⌊q + 1 / 2⌋

/-- `overallPercent` of `ProgressBar`: guarded by `total_tables > 0`. -/
def overallPercent (p : MigrationProgress) : ℤ :=
  if p.total_tables > 0 then
    jsRound ((p.current_table : ℚ) / (p.total_tables : ℚ) * 100)
  else 0

/-- `tablePercent` of `ProgressBar`: guarded by `total_rows > 0`. -/
def tablePercent (p : MigrationProgress) : ℤ :=
  if p.total_rows > 0 then
    jsRound ((p.rows_transferred : ℚ) / (p.total_rows : ℚ) * 100)
  else 0

/-- What `ProgressBar` renders: the preparing placeholder for a null
progress, otherwise a view whose every displayed quantity is listed. -/
inductive ProgressRender where
  | preparing
  | view (overall tablePct : ℤ) (tableName : String)
      (currentTable totalTables rowsTransferred totalRows : ℤ)
      (status : String) (error : Option String)
deriving DecidableEq

/-- `ProgressBar` as a function of its (nullable) `progress` prop. -/
def renderProgressBar (progress : Option MigrationProgress) : ProgressRender :=
  match progress with
  | none => ProgressRender.preparing
  | some p =>
    ProgressRender.view (overallPercent p) (tablePercent p) p.table_name
      p.current_table p.total_tables p.rows_transferred p.total_rows
      p.status p.error

/-- The `migration-progress` event handler in `App.tsx`:
`setProgress(event.payload)` — the stored state is replaced wholesale. -/
def handleProgressEvent (_old : Option MigrationProgress) (payload : MigrationProgress) :
    Option MigrationProgress :=
  some payload

/-! ## Result banner -/

/-- The result banner of `App.tsx`: success variant with its displayed
numbers, or error variant carrying the `errors` it joins and displays. -/
inductive ResultBanner where
  | successBanner (tablesMigrated totalRows elapsedMs : Nat)
  | errorBanner (errors : List String)
deriving DecidableEq

/-- The banner rendered for a `MigrationResult` (chosen by `.success`). -/
def renderResultBanner (r : MigrationResult) : ResultBanner :=
  if r.success then
    ResultBanner.successBanner r.tables_migrated r.total_rows r.elapsed_ms
  else
    ResultBanner.errorBanner r.errors

/-! ## ConnectionForm `handleConnect` -/

/-- The port of `finalConfig` in `handleConnect`: `config.port || 5432`
(JS `||` treats an absent value and `0` as falsy). -/
def connectPort (port : Option Nat) : Nat :=
  match port with
  | none => 5432
  | some 0 => 5432
  | some n => n

/-- The `finalConfig` actually sent to `connect_database`. -/
def handleConnectConfig (config : ConnectionConfig) : ConnectionConfig :=
  { config with port := some (connectPort config.port) }

/-! ## Concrete values used by witnesses -/

/-- A concrete connected source for witnesses. -/
def demoSource : ConnectionStatus := ⟨"s1", true, "db1", "h1", none⟩

/-- A concrete connected target for witnesses. -/
def demoTarget : ConnectionStatus := ⟨"t1", true, "db2", "h2", none⟩

/-- A concrete source config for witnesses. -/
def demoSourceConfig : ConnectionConfig := ⟨"h1", some 5432, "db1", "u", ""⟩

/-- A concrete target config for witnesses. -/
def demoTargetConfig : ConnectionConfig := ⟨"h2", some 5432, "db2", "u", ""⟩

/-- A concrete app state with both sides connected and one selected table. -/
def demoState : AppState :=
  ⟨some demoSource, some demoTarget, demoSourceConfig, demoTargetConfig,
    [], [], {"public.t"}⟩

/-- The same state with no target connection, for the `handleSort` witness. -/
def demoStateNoTarget : AppState :=
  ⟨some demoSource, none, demoSourceConfig, demoTargetConfig,
    [], [], {"public.t"}⟩

/-- A concrete saved connection named `a`. -/
def demoSavedA : SavedConnection := ⟨"a", demoSourceConfig⟩

/-- A concrete saved connection named `b`. -/
def demoSavedB : SavedConnection := ⟨"b", demoTargetConfig⟩

/-- A replacement saved connection reusing the name `a`. -/
def demoSavedA2 : SavedConnection := ⟨"a", demoTargetConfig⟩

/-! ## Theorems -/

/-- Claim C1: the `tables` sequence `handleMigrate` places in the
`start_migration` request is exactly the filter of the current
`sourceTables` by the selection (projected to refs), and that sequence is a
sublist of `sourceTables` in order — a filter with no re-sorting, so the
relative order of the selected tables in `sourceTables` is preserved. -/
theorem handleMigrate_tables_preserve_source_order
    (s : AppState) (sc tc : ConnectionStatus) (targetSchema : String)
    (options : MigrationOptions) :
    (mkMigrationRequest s sc tc targetSchema options).tables
        = tablesToMigrate s.selectedTables s.sourceTables ∧
      (tablesToMigrate s.selectedTables s.sourceTables).Sublist
        (s.sourceTables.map (fun t => ({ schema := t.schema, name := t.name } : TableRef))) := by
  refine ⟨rfl, ?_⟩
  exact (List.filter_sublist _).map _

/-- Claim C3: every batch size selectable in `MigrationPanel` lies in
1–100,000 (the options are exactly 100, 1000, 10000, 50000), and the default
options carry `batch_size = 1000`, itself one of the selectable values. -/
theorem batchSize_options_sane :
    (∀ b ∈ batchSizeOptions, 1 ≤ b ∧ b ≤ 100000) ∧
      batchSizeOptions = [100, 1000, 10000, 50000] ∧
      defaultMigrationOptions.batch_size = 1000 ∧
      defaultMigrationOptions.batch_size ∈ batchSizeOptions := by
  refine ⟨?_, rfl, rfl, by decide⟩
  decide

/-- Witness for C3 at the concrete option 100. -/
theorem batchSize_options_sane_witness :
    100 ∈ batchSizeOptions ∧ 1 ≤ 100 ∧ 100 ≤ 100000 :=
  ⟨by decide, batchSize_options_sane.1 100 (by decide)⟩

/-- Claim C4: the `migration-progress` handler replaces the whole stored
progress with the payload — the new state is `some payload` regardless of
the previous state — and everything `ProgressBar` displays for the new state
is a function of the payload alone (no field of a previous event is
combined with the new one). -/
theorem progress_event_is_snapshot
    (old₁ old₂ : Option MigrationProgress) (payload : MigrationProgress) :
    handleProgressEvent old₁ payload = some payload ∧
      handleProgressEvent old₁ payload = handleProgressEvent old₂ payload ∧
      renderProgressBar (handleProgressEvent old₁ payload) =
        ProgressRender.view (overallPercent payload) (tablePercent payload)
          payload.table_name payload.current_table payload.total_tables
          payload.rows_transferred payload.total_rows payload.status
          payload.error :=
  ⟨rfl, rfl, rfl⟩

/-- Claim C5: the config `handleConnect` sends to `connect_database` carries
port 5432 whenever the configured port is absent or zero, and otherwise the
user-supplied port unchanged (and no other field is altered). -/
theorem handleConnect_port_defaulting (config : ConnectionConfig) :
    ((config.port = none ∨ config.port = some 0) →
        (handleConnectConfig config).port = some 5432) ∧
      (∀ n : Nat, config.port = some n → n ≠ 0 →
        (handleConnectConfig config).port = some n) ∧
      (handleConnectConfig config).host = config.host ∧
      (handleConnectConfig config).database = config.database ∧
      (handleConnectConfig config).username = config.username ∧
      (handleConnectConfig config).password = config.password := by
  refine ⟨?_, ?_, rfl, rfl, rfl, rfl⟩
  · rintro (h | h) <;> simp [handleConnectConfig, connectPort, h]
  · intro n hn hne
    cases n with
    | zero => exact absurd rfl hne
    | succ m => simp [handleConnectConfig, connectPort, hn]

/-- Witness for C5: a config with port 0 is sent with port 5432. -/
theorem handleConnect_port_defaulting_witness :
    (handleConnectConfig
        { host := "localhost", port := some 0, database := "db",
          username := "postgres", password := "" }).port = some 5432 :=
  (handleConnect_port_defaulting
      { host := "localhost", port := some 0, database := "db",
        username := "postgres", password := "" }).1 (Or.inr rfl)

/-- Claim C9: `handleSwap` exchanges connections, configs and table lists
and empties the selection; applying it twice restores connections, configs
and table lists, and the selection is empty after every swap. -/
theorem handleSwap_involutive_on_swapped_fields (s : AppState) :
    (handleSwap (handleSwap s)).sourceConnection = s.sourceConnection ∧
      (handleSwap (handleSwap s)).targetConnection = s.targetConnection ∧
      (handleSwap (handleSwap s)).sourceConfig = s.sourceConfig ∧
      (handleSwap (handleSwap s)).targetConfig = s.targetConfig ∧
      (handleSwap (handleSwap s)).sourceTables = s.sourceTables ∧
      (handleSwap (handleSwap s)).targetTables = s.targetTables ∧
      (handleSwap s).sourceConnection = s.targetConnection ∧
      (handleSwap s).targetConnection = s.sourceConnection ∧
      (handleSwap s).sourceConfig = s.targetConfig ∧
      (handleSwap s).targetConfig = s.sourceConfig ∧
      (handleSwap s).sourceTables = s.targetTables ∧
      (handleSwap s).targetTables = s.sourceTables ∧
      (handleSwap s).selectedTables = ∅ :=
  ⟨rfl, rfl, rfl, rfl, rfl, rfl, rfl, rfl, rfl, rfl, rfl, rfl, rfl⟩

/-- Claim C10: `ProgressBar` renders the preparing placeholder for a null
progress, and its two percentages are guarded: the overall percent is 0
whenever `total_tables` is not positive, and the per-table percent is 0
whenever `total_rows` is not positive. -/
theorem progressBar_total_and_guarded :
    renderProgressBar none = ProgressRender.preparing ∧
      (∀ p : MigrationProgress, p.total_tables ≤ 0 → overallPercent p = 0) ∧
      (∀ p : MigrationProgress, p.total_rows ≤ 0 → tablePercent p = 0) := by
  refine ⟨rfl, ?_, ?_⟩
  · intro p h
    unfold overallPercent
    rw [if_neg (by omega)]
  · intro p h
    unfold tablePercent
    rw [if_neg (by omega)]

/-- Witness for C10 at a concrete snapshot with zero denominators. -/
theorem progressBar_total_and_guarded_witness :
    overallPercent
        { table_name := "t", current_table := 3, total_tables := 0,
          rows_transferred := 7, total_rows := 0, status := "Running",
          error := none } = 0 ∧
      tablePercent
        { table_name := "t", current_table := 3, total_tables := 0,
          rows_transferred := 7, total_rows := 0, status := "Running",
          error := none } = 0 :=
  ⟨progressBar_total_and_guarded.2.1 _ (by decide),
    progressBar_total_and_guarded.2.2 _ (by decide)⟩

/-- Claim C2: when `start_migration` rejects with message `e`, the handler
records the terminal `failureResult e` — `success = false`, `errors = [e]`
containing the failure message — and the banner for any result with
`success = false` is the error variant carrying exactly its `errors`, while
the success variant is rendered only for `success = true`. -/
theorem migration_failure_recorded_and_rendered
    (s : AppState) (sc tc : ConnectionStatus) (targetSchema : String)
    (options : MigrationOptions) (e : String)
    (hs : s.sourceConnection = some sc) (ht : s.targetConnection = some tc)
    (hsel : s.selectedTables ≠ ∅) :
    UiEvent.setLastResultEvt (some (failureResult e)) ∈
        handleMigrateTrace s targetSchema options (Except.error e) ∧
      (failureResult e).success = false ∧
      (failureResult e).errors = [e] ∧
      renderResultBanner (failureResult e) = ResultBanner.errorBanner [e] ∧
      (∀ r : MigrationResult, r.success = false →
        renderResultBanner r = ResultBanner.errorBanner r.errors) ∧
      (∀ (r : MigrationResult) (a b c : Nat),
        renderResultBanner r = ResultBanner.successBanner a b c →
          r.success = true) := by
  refine ⟨?_, rfl, rfl, rfl, ?_, ?_⟩
  · obtain ⟨src, tgt, _, _, _, _, _⟩ := s
    simp only at hs ht
    subst hs; subst ht
    simp [handleMigrateTrace, hsel]
  · intro r hr
    simp [renderResultBanner, hr]
  · intro r a b c hr
    cases hsucc : r.success with
    | true => rfl
    | false => simp [renderResultBanner, hsucc] at hr

/-- Witness for C2 at a concrete state and a concrete rejection message. -/
theorem migration_failure_recorded_and_rendered_witness :
    UiEvent.setLastResultEvt (some (failureResult "boom")) ∈
        handleMigrateTrace demoState "" defaultMigrationOptions
          (Except.error "boom") ∧
      (failureResult "boom").success = false :=
  ⟨(migration_failure_recorded_and_rendered demoState demoSource demoTarget
      "" defaultMigrationOptions "boom" rfl rfl (by decide)).1,
    (migration_failure_recorded_and_rendered demoState demoSource demoTarget
      "" defaultMigrationOptions "boom" rfl rfl (by decide)).2.1⟩

/-- Claim C6: dependency sorting happens only in the explicit `handleSort`
action — its trace is exactly one `sort_tables_by_dependency` invocation on
the selected list — while `handleMigrate` never invokes it for any state or
outcome; and `handleSort` reorders the displayed `sourceTables` to the
returned order: the update is a permutation of the previous list whose
`sortIdx` keys (positions in the returned order) are non-decreasing. -/
theorem dependency_sort_only_in_handleSort
    (s : AppState) (sc : ConnectionStatus) (targetSchema : String)
    (options : MigrationOptions) (outcome : Except String MigrationResult)
    (sorted : List TableRef) (prev : List TableInfo)
    (hs : s.sourceConnection = some sc) (hsel : s.selectedTables ≠ ∅) :
    handleSortTrace s =
        [UiEvent.invokeSortTables sc.id
          (tablesToMigrate s.selectedTables s.sourceTables)] ∧
      (∀ (cid : String) (ts : List TableRef),
        UiEvent.invokeSortTables cid ts ∉
          handleMigrateTrace s targetSchema options outcome) ∧
      (applySortResult sorted prev).Perm prev ∧
      (applySortResult sorted prev).Pairwise
        (fun a b => sortIdx sorted a ≤ sortIdx sorted b) := by
  refine ⟨?_, ?_, ?_, ?_⟩
  · obtain ⟨src, tgt, _, _, _, _, _⟩ := s
    simp only at hs hsel
    subst hs
    simp [handleSortTrace, hsel]
  · intro cid ts h
    obtain ⟨src, tgt, _, _, _, _, _⟩ := s
    simp only at hs hsel h
    subst hs
    cases tgt with
    | none => simp [handleMigrateTrace] at h
    | some tc =>
      cases outcome with
      | ok r => simp [handleMigrateTrace, hsel] at h
      | error e => simp [handleMigrateTrace, hsel] at h
  · exact List.mergeSort_perm prev (sortLe sorted)
  · have h := @List.sorted_mergeSort TableInfo (sortLe sorted)
      (fun a b c hab hbc => by
        simp only [sortLe, decide_eq_true_eq] at hab hbc ⊢
        omega)
      (fun a b => by
        simp only [sortLe, Bool.or_eq_true, decide_eq_true_eq]
        omega)
      prev
    exact h.imp (fun hab => by
      simpa only [sortLe, decide_eq_true_eq] using hab)

/-- Witness for C6 at a concrete state, sorted list and table list. -/
theorem dependency_sort_only_in_handleSort_witness :
    handleSortTrace demoStateNoTarget = [UiEvent.invokeSortTables "s1" []] :=
  (dependency_sort_only_in_handleSort demoStateNoTarget demoSource ""
      defaultMigrationOptions (Except.ok (failureResult "x")) [] []
      rfl (by decide)).1

/-- Claim C7: while `isMigrating` is true the panel renders the Cancel
button and no Migrate button, and `handleMigrate` sets `isMigrating` true
strictly before the `start_migration` invocation and resets it only after
the invocation settles: the trace splits around the invocation with the
set-true only before it and the set-false only after it. -/
theorem single_in_flight_migration
    (s : AppState) (sc tc : ConnectionStatus) (targetSchema : String)
    (options : MigrationOptions) (outcome : Except String MigrationResult)
    (canMigrate : Bool)
    (hs : s.sourceConnection = some sc) (ht : s.targetConnection = some tc)
    (hsel : s.selectedTables ≠ ∅) :
    renderPanelAction true canMigrate = PanelAction.cancelButton ∧
      (∀ b : Bool, renderPanelAction true canMigrate ≠ PanelAction.migrateButton b) ∧
      (∃ pre post : List UiEvent,
        handleMigrateTrace s targetSchema options outcome =
            pre ++ UiEvent.invokeStartMigration
              (mkMigrationRequest s sc tc targetSchema options) :: post ∧
          UiEvent.setIsMigrating true ∈ pre ∧
          UiEvent.setIsMigrating false ∉ pre ∧
          UiEvent.setIsMigrating false ∈ post ∧
          UiEvent.setIsMigrating true ∉ post) := by
  refine ⟨rfl, by intro b; simp [renderPanelAction], ?_⟩
  obtain ⟨src, tgt, _, _, _, _, _⟩ := s
  simp only at hs ht hsel ⊢
  subst hs; subst ht
  cases outcome with
  | ok r =>
    refine ⟨[UiEvent.setIsMigrating true, UiEvent.setProgressEvt none,
        UiEvent.setLastResultEvt none],
      [UiEvent.setLastResultEvt (some r), UiEvent.invokeGetTables tc.id,
        UiEvent.setIsMigrating false, UiEvent.setProgressEvt none], ?_, ?_, ?_, ?_, ?_⟩
    · simp [handleMigrateTrace, hsel]
    · simp
    · simp
    · simp
    · simp
  | error e =>
    refine ⟨[UiEvent.setIsMigrating true, UiEvent.setProgressEvt none,
        UiEvent.setLastResultEvt none],
      [UiEvent.setLastResultEvt (some (failureResult e)),
        UiEvent.setIsMigrating false, UiEvent.setProgressEvt none], ?_, ?_, ?_, ?_, ?_⟩
    · simp [handleMigrateTrace, hsel]
    · simp
    · simp
    · simp
    · simp

/-- Witness for C7 at a concrete state and outcome. -/
theorem single_in_flight_migration_witness :
    renderPanelAction true true = PanelAction.cancelButton :=
  (single_in_flight_migration demoState demoSource demoTarget ""
      defaultMigrationOptions (Except.error "boom") true
      rfl rfl (by decide)).1

/-- Claim C8: starting from pairwise-distinct names, saving removes any
same-named entry before appending and deleting only removes entries, so
both operations preserve name uniqueness. -/
theorem savedConnections_names_unique
    (prev : List SavedConnection) (nc : SavedConnection) (name : String)
    (h : (prev.map SavedConnection.name).Nodup) :
    ((handleSaveConnection prev nc).map SavedConnection.name).Nodup ∧
      ((handleDeleteConnection prev name).map SavedConnection.name).Nodup := by
  constructor
  · unfold handleSaveConnection
    rw [List.map_append]
    apply List.Nodup.append
    · exact h.sublist ((List.filter_sublist _).map _)
    · exact List.nodup_singleton _
    · intro a ha hb
      simp only [List.map_cons, List.map_nil, List.mem_singleton] at hb
      subst hb
      simp only [List.mem_map, List.mem_filter, decide_eq_true_eq] at ha
      obtain ⟨c, ⟨_, hne⟩, hcname⟩ := ha
      exact hne hcname
  · exact h.sublist ((List.filter_sublist _).map _)

/-- Witness for C8 on a concrete two-entry list, replacing one name. -/
theorem savedConnections_names_unique_witness :
    ((handleSaveConnection [demoSavedA, demoSavedB] demoSavedA2).map
      SavedConnection.name).Nodup :=
  (savedConnections_names_unique [demoSavedA, demoSavedB] demoSavedA2
      "a" (by decide)).1

end PGMigrate
